import Mathlib

/-!
Shallow embedding of the SoftwareMaintenanceClassification repository:
`github_commit_collector.py` (GitHubCommitCollector), `generate_results_gemini.py`
and `generate_results_gpt.py`.  External collaborators (the GitHub API, the two
text-generation services) are modelled as explicit inputs: the commits and
pull requests a repository would yield are fields of the `Repo` record, and a
service call is a function argument returning `Except` (error = raised
exception, ok = response payload).
-/

/-! ## Calendar: proleptic Gregorian dates and ISO-8601 week numbering.

The Python code calls `d.isocalendar()` (from the standard `datetime` library)
and `d.year` on commit author timestamps; only the date part matters for both,
so commit timestamps are embedded as dates. -/

structure Date where
  year : Nat
  month : Nat
  day : Nat

def isLeap (y : Nat) : Bool :=
  (y % 4 == 0 && y % 100 != 0) || (y % 400 == 0)

def daysInMonth (y m : Nat) : Nat :=
  if m = 2 then (if isLeap y then 29 else 28)
  else if m = 4 ∨ m = 6 ∨ m = 9 ∨ m = 11 then 30
  else 31

/-- Day-of-year ordinal, 1-based (Jan 1 ↦ 1). -/
def ordinalDay (d : Date) : Nat :=
  (List.range (d.month - 1)).foldl (fun acc i => acc + daysInMonth d.year (i + 1)) 0 + d.day

/-- Number of days in all years strictly before year `y` (proleptic Gregorian). -/
def daysBeforeYear (y : Nat) : Nat :=
  365 * (y - 1) + (y - 1) / 4 - (y - 1) / 100 + (y - 1) / 400

/-- Rata die: day count with Jan 1 of year 1 ↦ 1 (a Monday). -/
def rataDie (d : Date) : Nat :=
  daysBeforeYear d.year + ordinalDay d

/-- ISO weekday, Monday = 1 .. Sunday = 7. -/
def isoWeekday (d : Date) : Nat :=
  (rataDie d - 1) % 7 + 1

/-- Number of ISO weeks in year `y`: 53 when Jan 1 falls on Thursday, or on
Wednesday in a leap year; otherwise 52. -/
def weeksInYear (y : Nat) : Nat :=
  if isoWeekday ⟨y, 1, 1⟩ = 4 ∨ (isLeap y ∧ isoWeekday ⟨y, 1, 1⟩ = 3) then 53 else 52

/-- ISO-8601 calendar of a date, as Python's `date.isocalendar()` computes it:
the pair (ISO week-year, ISO week number). -/
def isocalendar (d : Date) : Nat × Nat :=
  let w := (ordinalDay d + 10 - isoWeekday d) / 7
  if w = 0 then (d.year - 1, weeksInYear (d.year - 1))
  else if weeksInYear d.year < w then (d.year + 1, 1)
  else (d.year, w)

/-- The observation window of the collector is calendar year 2024 (UTC): the
commit fetch passes since = 2024-01-01T00:00Z and until = 2025-01-01T00:00Z,
so a commit timestamp is in the window exactly when its date's year is 2024. -/
def inWindow2024 (d : Date) : Bool :=
  d.year == 2024

/-! ## Word tokenization and whitespace splitting.

`re.findall(r"\w+", msg)` returns the maximal runs of word characters
(alphanumeric or underscore); Python's `str.split()` with no argument returns
the maximal runs of non-whitespace characters.  Both are instances of one
"maximal runs satisfying p" function on the character list. -/

def runsAux (p : Char → Bool) : List Char → List Char → List (List Char)
  | [], acc => if acc.isEmpty then [] else [acc.reverse]
  | c :: cs, acc =>
    if p c then runsAux p cs (c :: acc)
    else if acc.isEmpty then runsAux p cs []
    else acc.reverse :: runsAux p cs []

def runsP (p : Char → Bool) (l : List Char) : List (List Char) :=
  runsAux p l []

def isWordChar (c : Char) : Bool :=
  c.isAlphanum || c == '_'

/-- `len(re.findall(r"\w+", s))`: the number of words in `s`. -/
def countWords (s : String) : Nat :=
  (runsP isWordChar s.data).length

/-- Python `s.split()`: whitespace-delimited tokens, empties dropped. -/
def pySplitWs (s : String) : List String :=
  (runsP (fun c => !c.isWhitespace) s.data).map (fun l => String.mk l)

/-- Python `s.strip()`: drop leading and trailing whitespace (extensionally
the same function as `String.trim`, written over the character list so that
it evaluates by kernel reduction). -/
def pyStrip (s : String) : String :=
  String.mk (((s.data.dropWhile Char.isWhitespace).reverse.dropWhile
    Char.isWhitespace).reverse)

/-! ## Data model of the collector. -/

/-- One commit as the validator sees it: the author date and the message
(`commit.commit.author.date` and `commit.commit.message`). -/
structure Commit where
  date : Date
  message : String

/-- One pull request as returned by `repo.get_pulls`, with the fields the
collector reads (`user` is `None`-able, as is `body`). -/
structure PullRequest where
  number : Nat
  title : String
  body : Option String
  user : Option String
  created_at : Date
  state : String
  merged : Bool

/-- A repository summary together with what the hosting service would return
for it: `commits2024` is the result of `get_commits` over the 2024 window, and
`pulls` is the outcome of `get_pulls` (error = the call raises). -/
structure Repo where
  full_name : String
  name : String
  description : Option String
  fork : Bool
  size : Nat
  commits2024 : List Commit
  pulls : Except String (List PullRequest)

/-- The validation criteria fixed at collector construction. -/
structure Criteria where
  min_commits_2024 : Nat
  min_active_weeks : Nat
  min_avg_words : Nat
  exclusion_keywords : List String
  exclude_forks : Bool

/-- `__init__`: `self.exclusion_keywords = exclusion_keywords or [...]`.
Python `or` takes the default when the left side is falsy, i.e. `None` or the
empty list. -/
def defaultExclusionKeywords : List String :=
  ["student", "exercise", "tutorial"]

def initExclusionKeywords : Option (List String) → List String
  | none => defaultExclusionKeywords
  | some l => if l.isEmpty then defaultExclusionKeywords else l

/-! ## The Repository Validator (`_repo_is_valid`). -/

/-- Python `str.lower()`: lower-case every character.  Written as a map over
the character list (extensionally the same function as `String.toLower`,
which maps `Char.toLower` over the string) so that it evaluates by kernel
reduction. -/
def pyLower (s : String) : String :=
  String.mk (s.data.map Char.toLower)

/-- `text = (repo.name + ' ' + (repo.description or '')).lower()`. -/
def repoText (r : Repo) : String :=
  pyLower (r.name ++ " " ++ r.description.getD "")

/-- `pat` is a prefix of the second character list. -/
def startsWithChars : List Char → List Char → Bool
  | [], _ => true
  | _ :: _, [] => false
  | a :: as, b :: bs => a == b && startsWithChars as bs

/-- Python's `pat in text` on strings: `pat` occurs as a contiguous substring. -/
def containsChars (pat : List Char) : List Char → Bool
  | [] => pat.isEmpty
  | c :: cs => startsWithChars pat (c :: cs) || containsChars pat cs

/-- `any(kw.lower() in text for kw in self.exclusion_keywords)`. -/
def excludedByKeyword (c : Criteria) (r : Repo) : Bool :=
  c.exclusion_keywords.any (fun kw => containsChars (pyLower kw).data (repoText r).data)

/-- `weeks = set((d.isocalendar()[1], d.year) for d in commit_dates)`; the
statistic is `len(weeks)`.  Note the second component is the calendar year
`d.year`, not the ISO week-year `d.isocalendar()[0]`. -/
def activeWeeks (dates : List Date) : Nat :=
  ((dates.map (fun d => ((isocalendar d).2, d.year))).dedup).length

/-- Modelled from the spec: "the set of distinct (ISO week number, ISO
week-year) pairs across all commit timestamps".  This is the statistic the
spec describes, kept separate so it can be compared with `activeWeeks`,
which embeds what the code computes. -/
def activeWeeksISOSpec (dates : List Date) : Nat :=
  ((dates.map (fun d => ((isocalendar d).2, (isocalendar d).1))).dedup).length

/-- `sum(len(re.findall(r"\w+", msg)) for msg in messages) / max(total_commits, 1)`.
`total_commits = len(commit_dates)` and both `commit_dates` and `messages`
gain one entry per fetched commit, so `total_commits` equals the length of the
commit list. -/
def avgWords (commits : List Commit) : ℚ :=
  ((commits.map (fun cm => (countWords cm.message : ℚ))).sum) /
    ((max commits.length 1 : ℕ) : ℚ)

/-- `_repo_is_valid`, instrumented with the number of commit-history fetches
performed (`repo.get_commits` is called once, after the fork and keyword
checks; the fork/keyword rejections return before it). -/
def repoIsValidT (c : Criteria) (r : Repo) : Bool × Nat :=
  if c.exclude_forks && r.fork then (false, 0)
  else if excludedByKeyword c r then (false, 0)
  else if r.commits2024.length < c.min_commits_2024 then (false, 1)
  else if activeWeeks (r.commits2024.map (fun cm => cm.date)) < c.min_active_weeks then (false, 1)
  else if avgWords r.commits2024 < (c.min_avg_words : ℚ) then (false, 1)
  else (true, 1)

/-- The boolean decision of `_repo_is_valid`. -/
def repoIsValid (c : Criteria) (r : Repo) : Bool :=
  (repoIsValidT c r).1

/-! ## The Repository Filter (`filter_repos`). -/

/-- The deduplication signature `sig = (repo.full_name, repo.size)`. -/
abbrev Sig : Type := String × Nat

def sigOf (r : Repo) : Sig :=
  (r.full_name, r.size)

/-- The loop of `filter_repos`: skip invalid repos, skip repos whose signature
was already seen, otherwise record the signature and keep the repo. -/
def filterReposAux (c : Criteria) : List Repo → List Sig → List Repo
  | [], _ => []
  | r :: rs, seen =>
    if repoIsValid c r = true then
      if sigOf r ∈ seen then filterReposAux c rs seen
      else r :: filterReposAux c rs (sigOf r :: seen)
    else filterReposAux c rs seen

/-- `filter_repos`: the list the method accumulates into `self.valid_repos`. -/
def filter_repos (c : Criteria) (repos : List Repo) : List Repo :=
  filterReposAux c repos []

/-- Modelled from the spec: "duplicates removed by Signature, keeping the
first occurrence" — deduplication alone, over an already-filtered list, for
comparison with `filter_repos`. -/
def dedupFirstBySig : List Sig → List Repo → List Repo
  | _, [] => []
  | seen, r :: rs =>
    if sigOf r ∈ seen then dedupFirstBySig seen rs
    else r :: dedupFirstBySig (sigOf r :: seen) rs

/-! ## The Pull Request Collector (`collect_pull_requests`). -/

/-- One row appended to `data` for a pull request. -/
structure PRRow where
  repo_full_name : String
  pr_number : Nat
  title : String
  body : String
  author : String
  created_at : Date
  state : String
  merged : Bool

def prRow (rname : String) (pr : PullRequest) : PRRow :=
  { repo_full_name := rname
    pr_number := pr.number
    title := pr.title
    body := pr.body.getD ""
    author := pr.user.getD "unknown"
    created_at := pr.created_at
    state := pr.state
    merged := pr.merged }

/-- The error line printed by the `except` branch. -/
def prErrLine (rname e : String) : String :=
  "Failed to retrieve PRs from " ++ rname ++ ": " ++ e

/-- `collect_pull_requests`: per repository, either all its PR rows (the
`get_pulls` call succeeds) or no rows and one error line (the call raises and
the `except` branch logs and continues with the next repository).  Returns
(the accumulated `data` rows, the error lines printed). -/
def collect_pull_requests : List Repo → List PRRow × List String
  | [] => ([], [])
  | r :: rs =>
    match r.pulls with
    | Except.ok prs =>
      ((prs.map (prRow r.full_name)) ++ (collect_pull_requests rs).1,
       (collect_pull_requests rs).2)
    | Except.error e =>
      ((collect_pull_requests rs).1,
       prErrLine r.full_name e :: (collect_pull_requests rs).2)

/-! ## The two commit classifiers. -/

def categories : List String :=
  ["Corrective", "Adaptive", "Perfective", "Preventive", "Development"]

/-- The f-string prompt of `generate_results_gemini.classify_commit`. -/
def geminiPrompt (survey_result commit_message : String) : String :=
  "You are an expert at classifying software development commits based on a survey result and the commit message.\n    Classify the following commit message into one of these categories: "
  ++ String.intercalate ", " categories
  ++ ".\n    Provide your answer as a single word representing the category.\n\n    Survey Result:\n    "
  ++ survey_result
  ++ "\n\n    Commit Message:\n    "
  ++ commit_message
  ++ "\n\n    Classification:\n    "

/-- `generate_results_gemini.classify_commit`.  `generate` models
`model.generate_content` on the prompt: an error is a raised exception
(caught, logged, mapped to "Error"); an ok value is `response.text`.  An empty
text is falsy, giving "No response"; otherwise the first token of
`response.text.strip().split()` is matched against the categories (a
whitespace-only text makes `split()[0]` raise IndexError, which the same
`except` catches, giving "Error"). -/
def classify_commit_gemini (generate : String → Except String String)
    (survey_result commit_message : String) : String :=
  match generate (geminiPrompt survey_result commit_message) with
  | Except.error _ => "Error"
  | Except.ok text =>
    if text.isEmpty then "No response"
    else
      match pySplitWs (pyStrip text) with
      | [] => "Error"
      | classification :: _ =>
        if classification ∈ categories then classification else "Unknown"

/-- `generate_results_gemini.classify_multiple_commits`: a dict keyed by
commit message, assigned in iteration order. -/
def dictInsert : List (String × String) → String → String → List (String × String)
  | [], k, v => [(k, v)]
  | p :: ps, k, v => if p.1 = k then (k, v) :: ps else p :: dictInsert ps k v

def classify_multiple_commits (generate : String → Except String String)
    (commits_data : List String) (sample_survey_result : String) :
    List (String × String) :=
  commits_data.foldl
    (fun results commit_message =>
      dictInsert results commit_message
        (classify_commit_gemini generate sample_survey_result commit_message))
    []

/-- The static system prompt of `generate_results_gpt.py`. -/
def SURVEY_TEXT : String :=
  "\nYou are an expert in software maintenance. Classify commit messages into one of the following categories:\n\n- Corrective\n- Adaptive\n- Perfective\n- Preventive\n- Development\n\nRespond using only ONE word. Below is the guiding survey used internally by the team:\n\n1. Does the change fix a bug or issue?\n2. Does it adapt the system to a new environment?\n3. Does it improve performance, maintainability, or SEO?\n4. Does it aim to prevent future issues?\n5. Is it part of initial development?\n\n[... continue up to question 30 ...]\n"

/-- `generate_results_gpt.classify_commit`.  `create` models
`openai.ChatCompletion.create` on (system message, user message): an error is
a raised exception (caught, logged, mapped to "Error"); an ok value is the
choice's message content.  The content is returned stripped, with no token
parsing and no check against the category list. -/
def classify_commit_gpt (create : String → String → Except String String)
    (commit_message : String) : String :=
  match create SURVEY_TEXT ("Commit: " ++ commit_message) with
  | Except.error _ => "Error"
  | Except.ok content => pyStrip content

/-! ## Helper lemmas about the Validator. -/

/-- Any repository whose active-week statistic is below the threshold is
rejected: every earlier short-circuit also returns `false`, and the week
check itself fails. -/
theorem repoIsValid_false_of_weeks (c : Criteria) (r : Repo)
    (h : activeWeeks (r.commits2024.map (fun cm => cm.date)) < c.min_active_weeks) :
    repoIsValid c r = false := by
  unfold repoIsValid repoIsValidT
  split_ifs <;> simp_all

/-- Any repository whose average word count is below the threshold is
rejected. -/
theorem repoIsValid_false_of_avg (c : Criteria) (r : Repo)
    (h : avgWords r.commits2024 < (c.min_avg_words : ℚ)) :
    repoIsValid c r = false := by
  unfold repoIsValid repoIsValidT
  split_ifs <;> simp_all

/-- Any repository whose in-window commit count is below the threshold is
rejected. -/
theorem repoIsValid_false_of_count (c : Criteria) (r : Repo)
    (h : r.commits2024.length < c.min_commits_2024) :
    repoIsValid c r = false := by
  unfold repoIsValid repoIsValidT
  split_ifs <;> simp_all

/-! ## Claim C1: the active-week statistic. -/

/-- C1 counterexample: on the in-window timestamps Jan 1, 2024 and
Dec 31, 2024 (the latter a Tuesday lying in ISO week 1 of week-year 2025), the
statistic the code computes — pairs (ISO week number, calendar year) — is 1,
while the cardinality of the set of (ISO week number, ISO week-year) pairs
claimed is 2, so the active-week statistic is not that cardinality; with
`min_active_weeks = 2` the code rejects a repository whose claimed statistic
meets the threshold. -/
theorem C1_counterexample :
    activeWeeks [⟨2024, 1, 1⟩, ⟨2024, 12, 31⟩] = 1 ∧
    activeWeeksISOSpec [⟨2024, 1, 1⟩, ⟨2024, 12, 31⟩] = 2 ∧
    activeWeeks [⟨2024, 1, 1⟩, ⟨2024, 12, 31⟩]
      ≠ activeWeeksISOSpec [⟨2024, 1, 1⟩, ⟨2024, 12, 31⟩] ∧
    isocalendar ⟨2024, 12, 31⟩ = (2025, 1) ∧
    isocalendar ⟨2024, 1, 1⟩ = (2024, 1) ∧
    inWindow2024 ⟨2024, 1, 1⟩ = true ∧
    inWindow2024 ⟨2024, 12, 31⟩ = true ∧
    repoIsValid ⟨0, 2, 0, [], true⟩
      ⟨"o/r", "r", none, false, 7,
        [⟨⟨2024, 1, 1⟩, "a b"⟩, ⟨⟨2024, 12, 31⟩, "a b"⟩], Except.ok []⟩ = false ∧
    ¬ activeWeeksISOSpec [⟨2024, 1, 1⟩, ⟨2024, 12, 31⟩]
        < (⟨0, 2, 0, [], true⟩ : Criteria).min_active_weeks := by
  decide

/-- C1 (amended): the active-week statistic is the cardinality of the set of
distinct (ISO week number, calendar year) pairs over the commit author
timestamps in the observation window — two timestamps in the same ISO week of
the same calendar-year label map to one pair, and Dec 31, 2024 maps to
(1, 2024), not (1, 2025) — and the repository is rejected when this
cardinality is below `min_active_weeks`. -/
theorem C1_active_weeks_amended (c : Criteria) (r : Repo)
    (h : activeWeeks (r.commits2024.map (fun cm => cm.date)) < c.min_active_weeks) :
    repoIsValid c r = false ∧
    (∀ dates : List Date,
      activeWeeks dates
        = ((dates.map (fun d => ((isocalendar d).2, d.year))).dedup).length) ∧
    activeWeeks [⟨2024, 12, 31⟩] = activeWeeks [⟨2024, 1, 1⟩] :=
  ⟨repoIsValid_false_of_weeks c r h, fun _ => rfl, by decide⟩

/-- Witness for C1_active_weeks_amended at a concrete repository. -/
theorem C1_active_weeks_amended_witness :
    repoIsValid ⟨0, 2, 0, [], true⟩
      ⟨"o/r", "r", none, false, 7,
        [⟨⟨2024, 1, 1⟩, "a b"⟩, ⟨⟨2024, 12, 31⟩, "a b"⟩], Except.ok []⟩ = false :=
  (C1_active_weeks_amended ⟨0, 2, 0, [], true⟩
    ⟨"o/r", "r", none, false, 7,
      [⟨⟨2024, 1, 1⟩, "a b"⟩, ⟨⟨2024, 12, 31⟩, "a b"⟩], Except.ok []⟩ (by decide)).1

/-! ## Claim C4: the average-word-count divisor. -/

/-- C4: the average-word-count computation never divides by zero — for every
commit list the divisor is `max(total_commits, 1)`, which is positive, the
empty message set yields an average of 0, and a repository whose average is
below `min_avg_words` is rejected. -/
theorem C4_avg_words_divisor (c : Criteria) (r : Repo)
    (h : avgWords r.commits2024 < (c.min_avg_words : ℚ)) :
    repoIsValid c r = false ∧
    avgWords ([] : List Commit) = 0 ∧
    ∀ commits : List Commit,
      avgWords commits
        = ((commits.map (fun cm => (countWords cm.message : ℚ))).sum) /
            ((max commits.length 1 : ℕ) : ℚ) ∧
      0 < max commits.length 1 := by
  refine ⟨repoIsValid_false_of_avg c r h, by norm_num [avgWords], ?_⟩
  intro commits
  exact ⟨rfl, by omega⟩

/-- Witness for C4_avg_words_divisor at a concrete repository whose single
commit message has 2 words, against a 5-word threshold. -/
theorem C4_avg_words_divisor_witness :
    repoIsValid ⟨0, 0, 5, [], true⟩
      ⟨"o/r", "r", none, false, 7, [⟨⟨2024, 3, 5⟩, "hi there"⟩], Except.ok []⟩ = false ∧
    avgWords ([] : List Commit) = 0 := by
  have hcw : countWords "hi there" = 2 := by decide
  have h := C4_avg_words_divisor ⟨0, 0, 5, [], true⟩
    ⟨"o/r", "r", none, false, 7, [⟨⟨2024, 3, 5⟩, "hi there"⟩], Except.ok []⟩
    (by norm_num [avgWords, hcw])
  exact ⟨h.1, h.2.1⟩

/-! ## Claim C6: keyword exclusion happens before any commit fetch. -/

/-- C6: a repository whose lower-cased name-and-description text contains an
exclusion keyword is rejected with zero commit-history fetches performed. -/
theorem C6_keyword_rejects_before_fetch (c : Criteria) (r : Repo)
    (h : excludedByKeyword c r = true) :
    repoIsValidT c r = (false, 0) := by
  unfold repoIsValidT
  split_ifs <;> simp_all

/-- Witness for C6 at a concrete repository whose description contains
"tutorial", with the default keyword list. -/
theorem C6_keyword_rejects_before_fetch_witness :
    repoIsValidT ⟨200, 5, 5, defaultExclusionKeywords, true⟩
      ⟨"o/r", "r", some "A Tutorial on things", false, 7,
        [⟨⟨2024, 3, 5⟩, "hi there"⟩], Except.ok []⟩ = (false, 0) :=
  C6_keyword_rejects_before_fetch ⟨200, 5, 5, defaultExclusionKeywords, true⟩
    ⟨"o/r", "r", some "A Tutorial on things", false, 7,
      [⟨⟨2024, 3, 5⟩, "hi there"⟩], Except.ok []⟩ (by decide)

/-! ## Claim C8: fork exclusion. -/

/-- C8: with `exclude_forks` set, a forked repository is rejected with zero
commit-history fetches, regardless of its commit statistics (its commit list
is universally quantified and never examined). -/
theorem C8_fork_rejected (c : Criteria) (r : Repo)
    (h1 : c.exclude_forks = true) (h2 : r.fork = true) :
    repoIsValidT c r = (false, 0) := by
  unfold repoIsValidT
  rw [if_pos (by rw [h1, h2]; rfl)]

/-- Witness for C8 at a concrete forked repository with strong statistics. -/
theorem C8_fork_rejected_witness :
    repoIsValidT ⟨0, 0, 0, [], true⟩
      ⟨"o/r", "r", none, true, 7, [⟨⟨2024, 3, 5⟩, "hi there"⟩], Except.ok []⟩
      = (false, 0) :=
  C8_fork_rejected ⟨0, 0, 0, [], true⟩
    ⟨"o/r", "r", none, true, 7, [⟨⟨2024, 3, 5⟩, "hi there"⟩], Except.ok []⟩ rfl rfl

/-! ## Claim C9: the commit-count short circuit at 199 commits. -/

/-- C9: under criteria (min_commits_2024 = 200, min_active_weeks = 5,
min_avg_words = 5), a non-fork repository with no exclusion keyword in its
text and exactly 199 in-window commits is rejected, whatever its week and
word statistics. -/
theorem C9_199_commits_rejected (kws : List String) (r : Repo)
    (hf : r.fork = false)
    (hk : excludedByKeyword ⟨200, 5, 5, kws, true⟩ r = false)
    (hn : r.commits2024.length = 199) :
    repoIsValid ⟨200, 5, 5, kws, true⟩ r = false :=
  repoIsValid_false_of_count ⟨200, 5, 5, kws, true⟩ r
    (by rw [hn]; exact (by decide : (199 : ℕ) < 200))

/-- Witness for C9 at a concrete repository with 199 identical commits. -/
theorem C9_199_commits_rejected_witness :
    repoIsValid ⟨200, 5, 5, defaultExclusionKeywords, true⟩
      ⟨"o/r", "r", none, false, 7,
        List.replicate 199 ⟨⟨2024, 3, 5⟩, "a fine message with many words"⟩,
        Except.ok []⟩ = false :=
  C9_199_commits_rejected defaultExclusionKeywords
    ⟨"o/r", "r", none, false, 7,
      List.replicate 199 ⟨⟨2024, 3, 5⟩, "a fine message with many words"⟩,
      Except.ok []⟩ rfl (by decide) (List.length_replicate _ _)

/-! ## Helper lemmas about the Filter. -/

/-- The filter loop equals: filter by the Validator, then deduplicate by
signature keeping first occurrences, threading the seen-set. -/
theorem filterReposAux_eq_dedup (c : Criteria) (l : List Repo) :
    ∀ seen : List Sig,
      filterReposAux c l seen
        = dedupFirstBySig seen (l.filter (fun r => repoIsValid c r)) := by
  induction l with
  | nil => intro seen; rfl
  | cons r rs ih =>
    intro seen
    by_cases hv : repoIsValid c r = true
    · by_cases hs : sigOf r ∈ seen
      · simp [filterReposAux, dedupFirstBySig, List.filter_cons, hv, hs, ih]
      · simp [filterReposAux, dedupFirstBySig, List.filter_cons, hv, hs, ih]
    · simp [filterReposAux, List.filter_cons, hv, ih]

/-- Nothing the filter loop emits carries a signature from the seen-set. -/
theorem sigOf_not_seen_of_mem_filterReposAux (c : Criteria) (l : List Repo) :
    ∀ (seen : List Sig) (r : Repo),
      r ∈ filterReposAux c l seen → sigOf r ∉ seen := by
  induction l with
  | nil => intro seen r h; simp [filterReposAux] at h
  | cons a rs ih =>
    intro seen r h
    by_cases hv : repoIsValid c a = true
    · rw [filterReposAux, if_pos hv] at h
      by_cases hs : sigOf a ∈ seen
      · rw [if_pos hs] at h
        exact ih seen r h
      · rw [if_neg hs] at h
        rcases List.mem_cons.mp h with h1 | h2
        · exact h1 ▸ hs
        · intro hseen
          exact ih (sigOf a :: seen) r h2 (List.mem_cons_of_mem _ hseen)
    · rw [filterReposAux, if_neg hv] at h
      exact ih seen r h

/-- No two repositories emitted by the filter loop share a signature. -/
theorem pairwise_filterReposAux (c : Criteria) (l : List Repo) :
    ∀ seen : List Sig,
      (filterReposAux c l seen).Pairwise (fun a b => sigOf a ≠ sigOf b) := by
  induction l with
  | nil => intro seen; simp [filterReposAux]
  | cons a rs ih =>
    intro seen
    by_cases hv : repoIsValid c a = true
    · rw [filterReposAux, if_pos hv]
      by_cases hs : sigOf a ∈ seen
      · rw [if_pos hs]; exact ih seen
      · rw [if_neg hs]
        refine List.Pairwise.cons ?_ (ih (sigOf a :: seen))
        intro b hb hab
        exact sigOf_not_seen_of_mem_filterReposAux c rs (sigOf a :: seen) b hb
          (hab ▸ List.mem_cons_self _ _)
    · rw [filterReposAux, if_neg hv]; exact ih seen

/-- Deduplication yields a sublist (order-preserving selection). -/
theorem dedupFirstBySig_sublist (l : List Repo) :
    ∀ seen : List Sig, (dedupFirstBySig seen l).Sublist l := by
  induction l with
  | nil => intro seen; simp [dedupFirstBySig]
  | cons r rs ih =>
    intro seen
    rw [dedupFirstBySig]
    by_cases hs : sigOf r ∈ seen
    · rw [if_pos hs]; exact (ih seen).cons _
    · rw [if_neg hs]; exact (ih (sigOf r :: seen)).cons₂ _

/-! ## Claim C3: the Repository Filter. -/

/-- C3: `filter_repos` returns exactly the Validator-passing sub-sequence of
the input with duplicates removed by signature keeping the first occurrence;
in particular the output is an order-preserving sub-sequence of the passing
repositories, and no two output repositories share a signature
(full_name, size). -/
theorem C3_filter_repos_dedup (c : Criteria) (repos : List Repo) :
    filter_repos c repos
      = dedupFirstBySig [] (repos.filter (fun r => repoIsValid c r)) ∧
    (filter_repos c repos).Sublist (repos.filter (fun r => repoIsValid c r)) ∧
    (filter_repos c repos).Pairwise (fun a b => sigOf a ≠ sigOf b) := by
  refine ⟨filterReposAux_eq_dedup c repos [], ?_, pairwise_filterReposAux c repos []⟩
  rw [filter_repos, filterReposAux_eq_dedup c repos []]
  exact dedupFirstBySig_sublist _ []

/-! ## Helper lemma about the Pull Request Collector. -/

/-- Collection distributes over concatenation of the repository list, for
both the data rows and the error lines. -/
theorem collect_pull_requests_append (l₁ l₂ : List Repo) :
    collect_pull_requests (l₁ ++ l₂)
      = ((collect_pull_requests l₁).1 ++ (collect_pull_requests l₂).1,
         (collect_pull_requests l₁).2 ++ (collect_pull_requests l₂).2) := by
  induction l₁ with
  | nil => simp [collect_pull_requests]
  | cons r rs ih =>
    rw [List.cons_append]
    cases hr : r.pulls with
    | ok prs => simp [collect_pull_requests, hr, ih]
    | error e => simp [collect_pull_requests, hr, ih]

/-! ## Claim C5: failure isolation in Pull Request collection. -/

/-- C5: if `get_pulls` raises for one repository, that repository contributes
no rows — the rows of the whole run are exactly the rows of the repositories
before it together with the rows of the repositories after it — one error
line for it is emitted in place, and every other repository's records are
still produced. -/
theorem C5_pr_failure_isolated (pre post : List Repo) (r : Repo) (e : String)
    (h : r.pulls = Except.error e) :
    (collect_pull_requests (pre ++ r :: post)).1
      = (collect_pull_requests pre).1 ++ (collect_pull_requests post).1 ∧
    (collect_pull_requests (pre ++ r :: post)).2
      = (collect_pull_requests pre).2
        ++ prErrLine r.full_name e :: (collect_pull_requests post).2 ∧
    ∀ (r2 : Repo) (prs : List PullRequest), r2.pulls = Except.ok prs →
      (collect_pull_requests (r2 :: post)).1
        = prs.map (prRow r2.full_name) ++ (collect_pull_requests post).1 := by
  have hmid : collect_pull_requests (r :: post)
      = ((collect_pull_requests post).1,
         prErrLine r.full_name e :: (collect_pull_requests post).2) := by
    simp [collect_pull_requests, h]
  refine ⟨?_, ?_, ?_⟩
  · rw [collect_pull_requests_append pre (r :: post), hmid]
  · rw [collect_pull_requests_append pre (r :: post), hmid]
  · intro r2 prs h2
    simp [collect_pull_requests, h2]

/-- Witness for C5: a failing repository between two succeeding ones. -/
theorem C5_pr_failure_isolated_witness :
    (collect_pull_requests
        [⟨"o/a", "a", none, false, 1, [],
            Except.ok [⟨1, "t1", none, some "u", ⟨2024, 5, 1⟩, "open", false⟩]⟩,
         ⟨"o/bad", "bad", none, false, 2, [], Except.error "boom"⟩,
         ⟨"o/c", "c", none, false, 3, [],
            Except.ok [⟨2, "t2", some "b", none, ⟨2024, 6, 2⟩, "closed", true⟩]⟩]).1
      = (collect_pull_requests
          [⟨"o/a", "a", none, false, 1, [],
              Except.ok [⟨1, "t1", none, some "u", ⟨2024, 5, 1⟩, "open", false⟩]⟩]).1
        ++ (collect_pull_requests
            [⟨"o/c", "c", none, false, 3, [],
                Except.ok [⟨2, "t2", some "b", none, ⟨2024, 6, 2⟩, "closed", true⟩]⟩]).1
      ∧
    (collect_pull_requests
        [⟨"o/a", "a", none, false, 1, [],
            Except.ok [⟨1, "t1", none, some "u", ⟨2024, 5, 1⟩, "open", false⟩]⟩,
         ⟨"o/bad", "bad", none, false, 2, [], Except.error "boom"⟩,
         ⟨"o/c", "c", none, false, 3, [],
            Except.ok [⟨2, "t2", some "b", none, ⟨2024, 6, 2⟩, "closed", true⟩]⟩]).2
      = (collect_pull_requests
          [⟨"o/a", "a", none, false, 1, [],
              Except.ok [⟨1, "t1", none, some "u", ⟨2024, 5, 1⟩, "open", false⟩]⟩]).2
        ++ prErrLine "o/bad" "boom"
            :: (collect_pull_requests
                [⟨"o/c", "c", none, false, 3, [],
                    Except.ok [⟨2, "t2", some "b", none, ⟨2024, 6, 2⟩, "closed", true⟩]⟩]).2 := by
  have h := C5_pr_failure_isolated
    [⟨"o/a", "a", none, false, 1, [],
        Except.ok [⟨1, "t1", none, some "u", ⟨2024, 5, 1⟩, "open", false⟩]⟩]
    [⟨"o/c", "c", none, false, 3, [],
        Except.ok [⟨2, "t2", some "b", none, ⟨2024, 6, 2⟩, "closed", true⟩]⟩]
    ⟨"o/bad", "bad", none, false, 2, [], Except.error "boom"⟩ "boom" rfl
  exact ⟨h.1, h.2.1⟩

/-! ## Claim C2: response parsing in the two classifiers. -/

/-- C2 counterexample: on the service response "Banana extra text", whose
first whitespace-delimited token "Banana" is none of the five category
labels, the GPT-variant classifier returns the stripped response text
verbatim — not the sentinel "Unknown" — because it performs no token parsing
and no category check; only the Gemini variant returns "Unknown" here. -/
theorem C2_counterexample :
    classify_commit_gpt (fun _ _ => Except.ok "Banana extra text") "fix the login" 
      = "Banana extra text" ∧
    classify_commit_gpt (fun _ _ => Except.ok "Banana extra text") "fix the login" 
      ≠ "Unknown" ∧
    pySplitWs "Banana extra text" = ["Banana", "extra", "text"] ∧
    "Banana" ∉ categories ∧
    classify_commit_gemini (fun _ => Except.ok "Banana extra text") "survey" "fix the login"
      = "Unknown" := by
  refine ⟨?_, ?_, by decide, by decide, ?_⟩
  · rfl
  · decide
  · rfl

/-- C2 (amended): the Gemini variant parses the first whitespace-delimited
token of the response and returns it exactly when it equals one of the five
category labels, returning "Unknown" otherwise; the GPT variant returns the
stripped response text verbatim, with no token parsing and no check against
the category labels. -/
theorem C2_first_token_amended (generate : String → Except String String)
    (survey msg text w : String) (ws : List String)
    (hresp : generate (geminiPrompt survey msg) = Except.ok text)
    (hne : text.isEmpty = false)
    (hsplit : pySplitWs (pyStrip text) = w :: ws) :
    classify_commit_gemini generate survey msg
      = (if w ∈ categories then w else "Unknown") ∧
    ∀ (create : String → String → Except String String) (m resp : String),
      create SURVEY_TEXT ("Commit: " ++ m) = Except.ok resp →
      classify_commit_gpt create m = pyStrip resp := by
  constructor
  · unfold classify_commit_gemini
    rw [hresp]
    simp only [hne, hsplit, Bool.false_eq_true, if_false]
  · intro create m resp h
    unfold classify_commit_gpt
    rw [h]

/-- Witness for C2_first_token_amended: a response whose first token is
"Corrective" is returned as the classification by the Gemini variant, and the
GPT variant returns the stripped response. -/
theorem C2_first_token_amended_witness :
    classify_commit_gemini (fun _ => Except.ok "Corrective") "survey" "fix the login"
      = "Corrective" ∧
    classify_commit_gpt (fun _ _ => Except.ok " Corrective ") "fix the login"
      = pyStrip " Corrective " := by
  have h := C2_first_token_amended (fun _ => Except.ok "Corrective")
    "survey" "fix the login" "Corrective" "Corrective" [] rfl (by decide) (by decide)
  refine ⟨?_, h.2 (fun _ _ => Except.ok " Corrective ") "fix the login" " Corrective " rfl⟩
  rw [h.1]
  decide

/-! ## Claim C7: service exceptions are caught per call. -/

/-- Inserting a key into the results dict makes it present. -/
theorem mem_dictInsert_self (d : List (String × String)) (k v : String) :
    ∃ w, (k, w) ∈ dictInsert d k v := by
  induction d with
  | nil => exact ⟨v, List.mem_singleton.mpr rfl⟩
  | cons p ps ih =>
    rw [dictInsert]
    by_cases h : p.1 = k
    · rw [if_pos h]; exact ⟨v, List.mem_cons_self _ _⟩
    · rw [if_neg h]
      obtain ⟨w, hw⟩ := ih
      exact ⟨w, List.mem_cons_of_mem _ hw⟩

/-- Keys already present in the results dict stay present after an insert. -/
theorem mem_dictInsert_of_mem (d : List (String × String)) (k v k' w : String)
    (h : (k', w) ∈ d) : ∃ w2, (k', w2) ∈ dictInsert d k v := by
  induction d with
  | nil => cases h
  | cons p ps ih =>
    rw [dictInsert]
    by_cases hk : p.1 = k
    · rw [if_pos hk]
      rcases List.mem_cons.mp h with h1 | h2
      · refine ⟨v, ?_⟩
        have : k' = k := by rw [← hk, ← h1]
        rw [this]
        exact List.mem_cons_self _ _
      · exact ⟨w, List.mem_cons_of_mem _ h2⟩
    · rw [if_neg hk]
      rcases List.mem_cons.mp h with h1 | h2
      · exact ⟨w, h1 ▸ List.mem_cons_self _ _⟩
      · obtain ⟨w2, hw2⟩ := ih h2
        exact ⟨w2, List.mem_cons_of_mem _ hw2⟩

/-- Every commit message fed to the batch loop ends up with an entry in the
results dict, whatever the accumulator already holds. -/
theorem mem_classify_multiple_aux (generate : String → Except String String)
    (survey : String) (commits : List String) :
    ∀ (acc : List (String × String)) (m : String),
      (m ∈ commits ∨ ∃ w, (m, w) ∈ acc) →
      ∃ v, (m, v) ∈ commits.foldl
        (fun results commit_message =>
          dictInsert results commit_message
            (classify_commit_gemini generate survey commit_message)) acc := by
  induction commits with
  | nil =>
    intro acc m h
    rcases h with h | h
    · cases h
    · exact h
  | cons cm cms ih =>
    intro acc m h
    rw [List.foldl_cons]
    apply ih
    rcases h with hm | ⟨w, hw⟩
    · rcases List.mem_cons.mp hm with h1 | h2
      · right
        exact h1 ▸ mem_dictInsert_self acc cm _
      · left; exact h2
    · right
      exact mem_dictInsert_of_mem acc cm _ m w hw

/-- C7: in both classifier variants a raised service call is caught per call
and mapped to the sentinel "Error" instead of propagating, and every commit
message of a batch still receives a classification entry. -/
theorem C7_exception_caught (generate : String → Except String String)
    (survey msg e : String)
    (hg : generate (geminiPrompt survey msg) = Except.error e)
    (create : String → String → Except String String) (msg2 e2 : String)
    (hc : create SURVEY_TEXT ("Commit: " ++ msg2) = Except.error e2)
    (commits : List String) (m : String) (hm : m ∈ commits) :
    classify_commit_gemini generate survey msg = "Error" ∧
    classify_commit_gpt create msg2 = "Error" ∧
    ∃ v, (m, v) ∈ classify_multiple_commits generate commits survey := by
  refine ⟨?_, ?_, ?_⟩
  · unfold classify_commit_gemini; rw [hg]
  · unfold classify_commit_gpt; rw [hc]
  · exact mem_classify_multiple_aux generate survey commits [] m (Or.inl hm)

/-- Witness for C7: a service that always raises still yields "Error"
results and a complete batch. -/
theorem C7_exception_caught_witness :
    classify_commit_gemini (fun _ => Except.error "boom") "survey" "fix it" = "Error" ∧
    classify_commit_gpt (fun _ _ => Except.error "boom") "fix it" = "Error" ∧
    ∃ v, ("fix it", v) ∈
      classify_multiple_commits (fun _ => Except.error "boom") ["fix it"] "survey" :=
  C7_exception_caught (fun _ => Except.error "boom") "survey" "fix it" "boom" rfl
    (fun _ _ => Except.error "boom") "fix it" "boom" rfl
    ["fix it"] "fix it" (List.mem_singleton.mpr rfl)

/-! ## Claim C10: the empty exclusion-keyword list is not honoured. -/

/-- C10: constructing the collector with an empty keyword list is
indistinguishable from passing none — both yield the default keywords
["student", "exercise", "tutorial"] — so keyword filtering cannot be
disabled by supplying an empty list. -/
theorem C10_empty_keywords_default :
    initExclusionKeywords (some []) = defaultExclusionKeywords ∧
    initExclusionKeywords none = defaultExclusionKeywords ∧
    initExclusionKeywords (some []) = initExclusionKeywords none ∧
    defaultExclusionKeywords = ["student", "exercise", "tutorial"] :=
  ⟨rfl, rfl, rfl, rfl⟩
